import Mathlib

/-!
Verification of the vocabulary lookup-with-cache core.

Shallow embedding of:
- `backend/internal/services` dictionary service (`LookupWord`,
  `fetchFromAPI`, `normalizeResponse`, the `cacheTTL` constant),
- `backend/internal/repository` cache operations (`GetCachedDictionary`,
  `SetCachedDictionary`, `CleanExpiredCache`),
- `backend/internal/handlers` HTTP lookup handler (`LookupWord` handler),
- the `models` package data types.

Timestamps and durations are modelled as `Int` nanoseconds (Go's
`time.Duration` is an `int64` nanosecond count; SQL `NOW()` is a point in
time). The external world (HTTP provider, storage faults) is passed in as an
explicit environment value.
-/

deriving instance DecidableEq for Except

namespace Vocab

/-! ## Go string normalization

`strings.ToLower(strings.TrimSpace(word))`. `strings.TrimSpace` removes
leading and trailing code points satisfying `unicode.IsSpace` (the Unicode
White_Space property). The case mapping is modelled on the ASCII range
(`A`-`Z`); the lookups verified here involve only ASCII words, where Go's
full Unicode simple case mapping agrees with this. -/

/-- `unicode.IsSpace`: the Unicode White_Space code points. -/
def goIsSpace (c : Char) : Bool :=
  let n := c.toNat
  n = 0x09 || n = 0x0A || n = 0x0B || n = 0x0C || n = 0x0D || n = 0x20 ||
  n = 0x85 || n = 0xA0 || n = 0x1680 || (0x2000 ≤ n && n ≤ 0x200A) ||
  n = 0x2028 || n = 0x2029 || n = 0x202F || n = 0x205F || n = 0x3000

/-- `strings.TrimSpace`: drop leading and trailing white space. -/
def goTrimSpace (s : String) : String :=
  ⟨((s.data.dropWhile goIsSpace).reverse.dropWhile goIsSpace).reverse⟩

/-- Lowercase one character (ASCII range, see section comment). -/
def goToLowerChar (c : Char) : Char :=
  if 65 ≤ c.toNat && c.toNat ≤ 90 then Char.ofNat (c.toNat + 32) else c

/-- `strings.ToLower` (ASCII range, see section comment). -/
def goToLower (s : String) : String :=
  ⟨s.data.map goToLowerChar⟩

/-- The input normalization performed at the top of the service
`LookupWord`: `strings.ToLower(strings.TrimSpace(word))`. -/
def goNormalize (s : String) : String :=
  goToLower (goTrimSpace s)

/-! ## Data model (`models` package) -/

/-- `models.Phonetic`. -/
structure Phonetic where
  text : String
  audio : String
  sourceURL : String
deriving DecidableEq, Repr

/-- `models.Definition`. `example` is a Lean keyword, hence `example_`. -/
structure Definition where
  definition : String
  example_ : String
  synonyms : List String
  antonyms : List String
deriving DecidableEq, Repr

/-- `models.Meaning`. -/
structure Meaning where
  partOfSpeech : String
  definitions : List Definition
  synonyms : List String
  antonyms : List String
deriving DecidableEq, Repr

/-- `models.DictionaryEntry`: the normalized dictionary response. In Go,
`SourceURL` left unset is the zero value `""` (serialized with
`omitempty`), so "absent" is the empty string here. -/
structure DictionaryEntry where
  word : String
  phonetics : List Phonetic
  meanings : List Meaning
  sourceURL : String
deriving DecidableEq, Repr

/-- The serialized cache payload (`[]byte` produced by `encoding/json`).
Modelled abstractly: `wellFormed e` stands for the JSON bytes
`json.Marshal` produces for `e` (which `json.Unmarshal` decodes back to
`e`); `corrupt s` stands for any byte string that does not decode into a
`DictionaryEntry`. -/
inductive CacheData where
  | wellFormed (e : DictionaryEntry)
  | corrupt (raw : String)
deriving DecidableEq, Repr

/-- `json.Marshal` on a `DictionaryEntry` (total: the struct contains only
strings and slices, for which marshalling cannot fail). -/
def jsonMarshal (e : DictionaryEntry) : CacheData :=
  .wellFormed e

/-- `json.Unmarshal` of a cache payload into a `DictionaryEntry`. -/
def jsonUnmarshal : CacheData → Option DictionaryEntry
  | .wellFormed e => some e
  | .corrupt _ => none

/-- `models.DictionaryCache`: one row of the `dictionary_cache` table. -/
structure DictionaryCache where
  word : String
  data : CacheData
  source : String
  fetchedAt : Int
  expiresAt : Int
deriving DecidableEq, Repr

/-- The `dictionary_cache` table. `word` is the primary key, so a
well-formed table has at most one row per word; operations below implement
the keyed SQL semantics on this row list. -/
abbrev Db := List DictionaryCache

/-! ## Repository cache operations (`repository.go`) -/

/-- `Repository.GetCachedDictionary`:
`SELECT ... FROM dictionary_cache WHERE word = $1 AND expires_at > NOW()`;
`pgx.ErrNoRows` is mapped to `(nil, nil)`, i.e. `none` with no error.
A storage fault is injected separately by the service environment. -/
def GetCachedDictionary (db : Db) (now : Int) (word : String) :
    Option DictionaryCache :=
  db.find? (fun r => r.word == word && decide (now < r.expiresAt))

/-- `Repository.SetCachedDictionary`:
`INSERT ... VALUES ($1,$2,$3,NOW(),NOW()+$4) ON CONFLICT (word) DO UPDATE
SET ...` — an atomic keyed upsert: any prior row for `word` is replaced by
the fresh row with `fetched_at = now`, `expires_at = now + ttl`. -/
def SetCachedDictionary (db : Db) (now : Int) (word : String)
    (data : CacheData) (source : String) (ttl : Int) : Db :=
  db.filter (fun r => !(r.word == word)) ++
    [⟨word, data, source, now, now + ttl⟩]

/-- `Repository.CleanExpiredCache`:
`DELETE FROM dictionary_cache WHERE expires_at < NOW()`. The Go function
returns only `error` — the command tag (row count) of `Exec` is discarded —
so the success value is `Unit`. A storage fault (`fault = some msg`) leaves
the table unchanged and surfaces the error. -/
def CleanExpiredCache (db : Db) (now : Int) (fault : Option String) :
    Db × Except String Unit :=
  match fault with
  | some m => (db, .error m)
  | none => (db.filter (fun r => !decide (r.expiresAt < now)), .ok ())

/-! ## Dictionary service (`services` package) -/

/-- `cacheTTL = 7 * 24 * time.Hour` in nanoseconds (`time.Hour` is
3.6e12 ns). -/
def cacheTTL : Int := 7 * 24 * 3600 * 1000000000

/-- `sourceFreeDic = "freedictionaryapi"`. -/
def sourceFreeDic : String := "freedictionaryapi"

/-- One phonetic object of the raw `FreeDictAPIResponse`. -/
structure APIPhonetic where
  text : String
  audio : String
  sourceUrl : String
deriving DecidableEq, Repr

/-- One definition object of the raw `FreeDictAPIResponse`. -/
structure APIDefinition where
  definition : String
  example_ : String
  synonyms : List String
  antonyms : List String
deriving DecidableEq, Repr

/-- One meaning object of the raw `FreeDictAPIResponse`. -/
structure APIMeaning where
  partOfSpeech : String
  definitions : List APIDefinition
  synonyms : List String
  antonyms : List String
deriving DecidableEq, Repr

/-- One entry of the raw `FreeDictAPIResponse` array. -/
structure APIEntry where
  word : String
  phonetics : List APIPhonetic
  meanings : List APIMeaning
  sourceUrls : List String
deriving DecidableEq, Repr

/-- `FreeDictAPIResponse`: the raw provider response array. -/
abbrev FreeDictAPIResponse := List APIEntry

/-- The phonetic conversion performed inside `normalizeResponse`'s
phonetics loop. -/
def toPhonetic (p : APIPhonetic) : Phonetic :=
  ⟨p.text, p.audio, p.sourceUrl⟩

/-- The definition conversion performed inside `normalizeResponse`'s
inner definitions loop. -/
def toDefinition (d : APIDefinition) : Definition :=
  ⟨d.definition, d.example_, d.synonyms, d.antonyms⟩

/-- The meaning conversion performed inside `normalizeResponse`'s
meanings loop. -/
def toMeaning (m : APIMeaning) : Meaning :=
  ⟨m.partOfSpeech, m.definitions.map toDefinition, m.synonyms, m.antonyms⟩

/-- `DictionaryService.normalizeResponse`: `first := apiResp[0]`; copy the
word, append-map every phonetic and meaning in order, and set `SourceURL`
to the first source URL when the list is non-empty (else it stays `""`).
The only caller checks `len(apiResp) != 0` first, modelled by `h`. -/
def normalizeResponse (apiResp : FreeDictAPIResponse) (h : apiResp ≠ []) :
    DictionaryEntry :=
  let first := apiResp.head h
  { word := first.word
    phonetics := first.phonetics.map toPhonetic
    meanings := first.meanings.map toMeaning
    sourceURL := first.sourceUrls.headD "" }

/-- The upstream HTTP body as seen after `io.ReadAll` and `json.Unmarshal`:
either bytes that fail to parse as a `FreeDictAPIResponse`, or the parsed
entry array. -/
inductive UpstreamBody where
  | malformed (raw : String)
  | entries (l : FreeDictAPIResponse)
deriving DecidableEq, Repr

/-- Outcome of the HTTP round trip inside `fetchFromAPI`:
request-creation failure, transport failure from `client.Do`, or a status
code with a body (the body read by `io.ReadAll` may itself fail). -/
inductive UpstreamResponse where
  | requestCreateError (msg : String)
  | transportError (msg : String)
  | httpStatus (code : Nat) (body : Except String UpstreamBody)
deriving DecidableEq, Repr

/-- The service's error values, one constructor per `fmt.Errorf` site. -/
inductive LookupErr where
  | emptyWord
  | cacheLookupFailed (msg : String)
  | unmarshalCacheFailed
  | requestCreateFailed (msg : String)
  | apiRequestFailed (msg : String)
  | readBodyFailed (msg : String)
  | parseAPIFailed (msg : String)
  | wordNotFound (word : String)
  | apiStatus (code : Nat)
  | emptyResponse
deriving DecidableEq, Repr

/-- `err.Error()` for each service error, following the `fmt.Errorf`
format strings ( `%w` renders as the wrapped message, `%d` as decimal).
For `unmarshalCacheFailed` the wrapped `encoding/json` message is elided:
only the fixed "failed to unmarshal cached data" head is kept, which is
what distinguishes it from every other error here. -/
def LookupErr.errString : LookupErr → String
  | .emptyWord => "word cannot be empty"
  | .cacheLookupFailed m => "cache lookup failed: " ++ m
  | .unmarshalCacheFailed => "failed to unmarshal cached data"
  | .requestCreateFailed m => "failed to create request: " ++ m
  | .apiRequestFailed m => "API request failed: " ++ m
  | .readBodyFailed m => "failed to read response body: " ++ m
  | .parseAPIFailed m => "failed to parse API response: " ++ m
  | .wordNotFound w => "word not found: " ++ w
  | .apiStatus c => "API returned status " ++ toString c
  | .emptyResponse => "empty response from API"

/-- `DictionaryService.fetchFromAPI word`, given the outcome of the HTTP
exchange: 404 → "word not found: word"; any other non-200 → status error;
on 200 the body is read and parsed; an empty parsed array → "empty
response from API"; otherwise `normalizeResponse`. -/
def fetchFromAPI (word : String) (resp : UpstreamResponse) :
    Except LookupErr DictionaryEntry :=
  match resp with
  | .requestCreateError m => .error (.requestCreateFailed m)
  | .transportError m => .error (.apiRequestFailed m)
  | .httpStatus code body =>
    if code = 404 then .error (.wordNotFound word)
    else if code ≠ 200 then .error (.apiStatus code)
    else match body with
      | .error m => .error (.readBodyFailed m)
      | .ok (.malformed raw) => .error (.parseAPIFailed raw)
      | .ok (.entries []) => .error .emptyResponse
      | .ok (.entries (f :: rest)) =>
        .ok (normalizeResponse (f :: rest) (List.cons_ne_nil f rest))

/-- The external world of one service `LookupWord` call: the database read
time, injected storage faults for the cache read and the cache write, and
the upstream HTTP outcome. -/
structure LookupEnv where
  now : Int
  readFault : Option String
  writeFault : Option String
  upstream : UpstreamResponse
deriving DecidableEq, Repr

/-- The parameters of a `SetCachedDictionary` call made by the service. -/
structure WriteCall where
  word : String
  data : CacheData
  source : String
  ttl : Int
deriving DecidableEq, Repr

/-- Observable outcome of one service `LookupWord` call: the returned
value or error, the database afterwards, how many cache reads and
upstream fetches were made, and the attempted cache write (if any) with
its parameters. -/
structure LookupOutcome where
  result : Except LookupErr DictionaryEntry
  db : Db
  readCount : Nat
  fetchCount : Nat
  writeCall : Option WriteCall
deriving DecidableEq, Repr

/-- `DictionaryService.LookupWord`:
1. normalize the input; empty → "word cannot be empty";
2. cache read (a storage fault is surfaced as "cache lookup failed");
   a hit is unmarshalled (failure surfaced, no fetch) and returned;
3. on a miss, `fetchFromAPI` (errors propagate, nothing written);
4. marshal the entry and attempt the cache write with `cacheTTL`;
   a write fault is only logged — the entry is still returned. -/
def LookupWord (db : Db) (env : LookupEnv) (word : String) : LookupOutcome :=
  let w := goNormalize word
  if w = "" then ⟨.error .emptyWord, db, 0, 0, none⟩
  else
    match env.readFault with
    | some m => ⟨.error (.cacheLookupFailed m), db, 1, 0, none⟩
    | none =>
      match GetCachedDictionary db env.now w with
      | some cached =>
        match jsonUnmarshal cached.data with
        | none => ⟨.error .unmarshalCacheFailed, db, 1, 0, none⟩
        | some entry => ⟨.ok entry, db, 1, 0, none⟩
      | none =>
        match fetchFromAPI w env.upstream with
        | .error e => ⟨.error e, db, 1, 1, none⟩
        | .ok entry =>
          let data := jsonMarshal entry
          let call : WriteCall := ⟨w, data, sourceFreeDic, cacheTTL⟩
          match env.writeFault with
          | some _ => ⟨.ok entry, db, 1, 1, some call⟩
          | none =>
            ⟨.ok entry,
             SetCachedDictionary db env.now w data sourceFreeDic cacheTTL,
             1, 1, some call⟩

/-! ## HTTP lookup handler (`handlers.go`) -/

/-- `Handler.LookupWord` (GET /api/dict), reduced to the HTTP status it
writes: empty query → 400; a service error whose `Error()` equals
`"word not found: " ++ rawWord` (the **raw** query value) → 404, any other
service error → 500; on success the wordbook-membership check may fail
(→ 500), else 200. -/
def LookupWordHandler (db : Db) (env : LookupEnv)
    (wordbook : Except String Bool) (rawWord : String) : Nat :=
  if rawWord = "" then 400
  else
    match (LookupWord db env rawWord).result with
    | .error e =>
      if e.errString = "word not found: " ++ rawWord then 404 else 500
    | .ok _ =>
      match wordbook with
      | .error _ => 500
      | .ok _ => 200

/-! ## Helper lemmas -/

/-- Appending the same string on the left is injective. -/
theorem string_append_left_cancel {p a b : String} (h : p ++ a = p ++ b) :
    a = b := by
  obtain ⟨la⟩ := a
  obtain ⟨lb⟩ := b
  obtain ⟨lp⟩ := p
  have hd : lp ++ la = lp ++ lb := congrArg String.data h
  exact congrArg String.mk (List.append_cancel_left hd)

/-- Reading a key right after upserting it returns the fresh record, as
long as the read happens before the record's expiry. -/
theorem getCached_after_setCached (db : Db) (tw : Int) (w : String)
    (data : CacheData) (src : String) (ttl t : Int) (ht : t < tw + ttl) :
    GetCachedDictionary (SetCachedDictionary db tw w data src ttl) t w =
      some ⟨w, data, src, tw, tw + ttl⟩ := by
  unfold GetCachedDictionary SetCachedDictionary
  rw [List.find?_append]
  have h1 : (db.filter (fun r => !(r.word == w))).find?
      (fun r => r.word == w && decide (t < r.expiresAt)) = none := by
    apply List.find?_eq_none.mpr
    intro r hr
    have hne := (List.mem_filter.mp hr).2
    simp only [Bool.not_eq_eq_eq_not, Bool.not_true, beq_eq_false_iff_ne,
      ne_eq] at hne
    simp [hne]
  rw [h1]
  simp [List.find?, ht]

/-! ## Theorems for the claims -/

/-- Claim C5: for every input that is empty after trimming (and
lowercasing), `LookupWord` fails with the validation error and performs no
cache read, no upstream fetch, no cache write, and leaves the database
unchanged. -/
theorem C5_empty_input_rejected (db : Db) (env : LookupEnv) (word : String)
    (hw : goNormalize word = "") :
    LookupWord db env word = ⟨.error .emptyWord, db, 0, 0, none⟩ := by
  simp [LookupWord, hw]

/-- Witness for C5 at the whitespace-only input `"   "`. -/
theorem C5_empty_input_rejected_witness :
    LookupWord [] ⟨0, none, none, .transportError "x"⟩ "   " =
      ⟨.error .emptyWord, [], 0, 0, none⟩ :=
  C5_empty_input_rejected [] ⟨0, none, none, .transportError "x"⟩ "   "
    (by decide)

/-- Claim C6: `GetCachedDictionary` returns a record only when its
`expiresAt` is strictly later than the read time; whenever every record
for the key has `expiresAt ≤ now` — in particular when it equals `now`,
when the record is expired, or when there is no record at all — the result
is `none`, with no error channel to tell the cases apart. -/
theorem C6_get_if_valid_strict (db : Db) (now : Int) (word : String) :
    (∀ r, GetCachedDictionary db now word = some r →
      r ∈ db ∧ r.word = word ∧ now < r.expiresAt) ∧
    ((∀ r ∈ db, r.word = word → r.expiresAt ≤ now) →
      GetCachedDictionary db now word = none) := by
  constructor
  · intro r hr
    have hmem := List.mem_of_find?_eq_some hr
    have hp := List.find?_some hr
    simp only [Bool.and_eq_true, beq_iff_eq, decide_eq_true_eq] at hp
    exact ⟨hmem, hp.1, hp.2⟩
  · intro h
    apply List.find?_eq_none.mpr
    intro r hmem
    simp only [Bool.and_eq_true, beq_iff_eq, decide_eq_true_eq, not_and]
    intro hweq
    exact fun hlt => absurd hlt (not_lt.mpr (h r hmem hweq))

/-- Witness for C6: a record whose `expiresAt` equals the read time is a
miss. -/
theorem C6_get_if_valid_strict_witness :
    GetCachedDictionary [⟨"hello", .corrupt "x", "s", 0, 5⟩] 5 "hello" =
      none :=
  (C6_get_if_valid_strict [⟨"hello", .corrupt "x", "s", 0, 5⟩] 5 "hello").2
    (by decide)

/-- Counterexample to claim C9 as stated: `CleanExpiredCache` does not
return the count of deleted records — two runs that delete different
numbers of records (zero and one here) return the very same success value,
so the return cannot carry the count. -/
theorem C9_counterexample :
    (CleanExpiredCache [] 0 none).2 =
      (CleanExpiredCache [⟨"a", .corrupt "", "s", -2, -1⟩] 0 none).2 ∧
    ([] : Db).length - (CleanExpiredCache [] 0 none).1.length ≠
      ([⟨"a", .corrupt "", "s", -2, -1⟩] : Db).length -
        (CleanExpiredCache [⟨"a", .corrupt "", "s", -2, -1⟩] 0 none).1.length
    := by
  decide

/-- Claim C9 (amended): `CleanExpiredCache` keeps exactly the records with
`expiresAt ≥ now` (deleting the strictly earlier ones), preserves the
surviving records untouched and in order, succeeds with no count, and on a
storage fault reports the error leaving the table unchanged. -/
theorem C9_purge_expired (db : Db) (now : Int) :
    (∀ r ∈ (CleanExpiredCache db now none).1, r ∈ db ∧ ¬ r.expiresAt < now) ∧
    (∀ r ∈ db, ¬ r.expiresAt < now → r ∈ (CleanExpiredCache db now none).1) ∧
    (CleanExpiredCache db now none).1.Sublist db ∧
    (CleanExpiredCache db now none).2 = .ok () ∧
    (∀ m, CleanExpiredCache db now (some m) = (db, .error m)) := by
  refine ⟨?_, ?_, ?_, rfl, fun m => rfl⟩
  · intro r hr
    simpa [CleanExpiredCache, List.mem_filter] using hr
  · intro r hmem hexp
    simp [CleanExpiredCache, List.mem_filter]
    exact ⟨hmem, not_lt.mp hexp⟩
  · simp only [CleanExpiredCache]
    exact List.filter_sublist db

/-- Witness for the amended C9: an unexpired record survives the purge of
a table that also holds an expired one. -/
theorem C9_purge_expired_witness :
    (⟨"a", .corrupt "", "s", 0, 5⟩ : DictionaryCache) ∈
      (CleanExpiredCache
        [⟨"a", .corrupt "", "s", 0, 5⟩, ⟨"b", .corrupt "", "s", -2, -1⟩]
        0 none).1 :=
  (C9_purge_expired
      [⟨"a", .corrupt "", "s", 0, 5⟩, ⟨"b", .corrupt "", "s", -2, -1⟩]
      0).2.1 _ (by decide) (by decide)

/-- Counterexample to claim C1 as stated: the `word` field of the entry a
successful lookup returns comes from the provider's response, not from the
input. Here the input `"hello"` normalizes to `"hello"`, the upstream
fetch succeeds, the cache write happens, yet the returned `word` is the
provider's `"HELLO"`. -/
theorem C1_counterexample :
    (LookupWord [] ⟨0, none, none,
        .httpStatus 200 (.ok (.entries [⟨"HELLO", [], [], []⟩]))⟩
      "hello").result = .ok ⟨"HELLO", [], [], ""⟩ ∧
    (LookupWord [] ⟨0, none, none,
        .httpStatus 200 (.ok (.entries [⟨"HELLO", [], [], []⟩]))⟩
      "hello").writeCall.isSome = true ∧
    "HELLO" ≠ goNormalize "hello" := by
  decide

/-- Claim C1 (amended): a `LookupWord` that completes via a successful
upstream fetch and cache write returns the `DictionaryEntry` built from
the provider's first response entry, whose `word` field equals that
entry's word; it equals the trimmed, lowercased input exactly when the
provider echoes the requested word. -/
theorem C1_word_from_provider (db : Db) (env : LookupEnv) (word : String)
    (first : APIEntry) (rest : FreeDictAPIResponse)
    (hw : goNormalize word ≠ "")
    (hr : env.readFault = none)
    (hmiss : GetCachedDictionary db env.now (goNormalize word) = none)
    (hup : env.upstream = .httpStatus 200 (.ok (.entries (first :: rest))))
    (hwf : env.writeFault = none) :
    ∃ e, (LookupWord db env word).result = .ok e ∧
      (LookupWord db env word).writeCall =
        some ⟨goNormalize word, jsonMarshal e, sourceFreeDic, cacheTTL⟩ ∧
      e.word = first.word ∧
      (first.word = goNormalize word → e.word = goNormalize word) := by
  refine ⟨normalizeResponse (first :: rest) (List.cons_ne_nil first rest),
    ?_, ?_, rfl, fun hEq => hEq⟩
  all_goals simp [LookupWord, fetchFromAPI, hw, hr, hmiss, hup, hwf]

/-- Witness for the amended C1: with a provider that echoes the normalized
word, the returned entry's `word` equals the trimmed, lowercased input. -/
theorem C1_word_from_provider_witness :
    ∃ e, (LookupWord [] ⟨0, none, none,
        .httpStatus 200 (.ok (.entries [⟨"hello", [], [], []⟩]))⟩
      " Hello ").result = .ok e ∧
      (LookupWord [] ⟨0, none, none,
          .httpStatus 200 (.ok (.entries [⟨"hello", [], [], []⟩]))⟩
        " Hello ").writeCall =
        some ⟨goNormalize " Hello ", jsonMarshal e, sourceFreeDic, cacheTTL⟩ ∧
      e.word = "hello" ∧
      ("hello" = goNormalize " Hello " → e.word = goNormalize " Hello ") :=
  C1_word_from_provider [] ⟨0, none, none,
      .httpStatus 200 (.ok (.entries [⟨"hello", [], [], []⟩]))⟩
    " Hello " ⟨"hello", [], [], []⟩ [] (by decide) rfl rfl rfl rfl

/-- Claim C2: when the cache write after a successful fetch fails with a
storage fault, `LookupWord` still returns the fetched entry as a success,
the database is unchanged, and the attempted write used the fixed TTL of
7 days (in nanoseconds). -/
theorem C2_write_failure_nonfatal (db : Db) (env : LookupEnv)
    (word : String) (entry : DictionaryEntry) (msg : String)
    (hw : goNormalize word ≠ "")
    (hr : env.readFault = none)
    (hmiss : GetCachedDictionary db env.now (goNormalize word) = none)
    (hfetch : fetchFromAPI (goNormalize word) env.upstream = .ok entry)
    (hwf : env.writeFault = some msg) :
    (LookupWord db env word).result = .ok entry ∧
    (LookupWord db env word).db = db ∧
    (LookupWord db env word).writeCall =
      some ⟨goNormalize word, jsonMarshal entry, sourceFreeDic,
        7 * 24 * 3600 * 1000000000⟩ := by
  refine ⟨?_, ?_, ?_⟩
  all_goals simp [LookupWord, hw, hr, hmiss, hfetch, hwf, cacheTTL]

/-- Witness for C2 at a concrete failing write. -/
theorem C2_write_failure_nonfatal_witness :
    (LookupWord [] ⟨0, none, some "disk full",
        .httpStatus 200 (.ok (.entries [⟨"hello", [], [], []⟩]))⟩
      "hello").result = .ok ⟨"hello", [], [], ""⟩ ∧
    (LookupWord [] ⟨0, none, some "disk full",
        .httpStatus 200 (.ok (.entries [⟨"hello", [], [], []⟩]))⟩
      "hello").db = [] ∧
    (LookupWord [] ⟨0, none, some "disk full",
        .httpStatus 200 (.ok (.entries [⟨"hello", [], [], []⟩]))⟩
      "hello").writeCall =
      some ⟨goNormalize "hello", jsonMarshal ⟨"hello", [], [], ""⟩,
        sourceFreeDic, 7 * 24 * 3600 * 1000000000⟩ :=
  C2_write_failure_nonfatal [] ⟨0, none, some "disk full",
      .httpStatus 200 (.ok (.entries [⟨"hello", [], [], []⟩]))⟩
    "hello" ⟨"hello", [], [], ""⟩ "disk full" (by decide) rfl rfl (by decide)
    rfl

/-- Claim C3: a storage fault on the cache read makes `LookupWord` fail
without calling the provider; a cached payload that fails to deserialize
makes it fail without calling the provider; only a genuine miss proceeds
to the upstream fetch — so the two failure outcomes are distinguishable
from a miss. -/
theorem C3_cache_read_failures (db : Db) (env : LookupEnv) (word : String)
    (hw : goNormalize word ≠ "") :
    (∀ m, env.readFault = some m →
      LookupWord db env word =
        ⟨.error (.cacheLookupFailed m), db, 1, 0, none⟩) ∧
    (env.readFault = none →
      ∀ r, GetCachedDictionary db env.now (goNormalize word) = some r →
        jsonUnmarshal r.data = none →
        LookupWord db env word =
          ⟨.error .unmarshalCacheFailed, db, 1, 0, none⟩) ∧
    (env.readFault = none →
      GetCachedDictionary db env.now (goNormalize word) = none →
      (LookupWord db env word).fetchCount = 1) := by
  refine ⟨?_, ?_, ?_⟩
  · intro m hm
    simp [LookupWord, hw, hm]
  · intro hr r hrec hbad
    simp [LookupWord, hw, hr, hrec, hbad]
  · intro hr hmiss
    cases hf : fetchFromAPI (goNormalize word) env.upstream
    · simp [LookupWord, hw, hr, hmiss, hf]
    · cases hwf : env.writeFault
      all_goals simp [LookupWord, hw, hr, hmiss, hf, hwf]

/-- Witness for C3: the three branches at concrete inputs — a read fault,
a corrupt cached payload, and a miss that reaches the provider. -/
theorem C3_cache_read_failures_witness :
    LookupWord [] ⟨0, some "conn lost", none, .transportError "x"⟩ "hello" =
      ⟨.error (.cacheLookupFailed "conn lost"), [], 1, 0, none⟩ ∧
    LookupWord [⟨"hello", .corrupt "junk", "s", 0, 10⟩]
        ⟨0, none, none, .transportError "x"⟩ "hello" =
      ⟨.error .unmarshalCacheFailed,
        [⟨"hello", .corrupt "junk", "s", 0, 10⟩], 1, 0, none⟩ ∧
    (LookupWord [] ⟨0, none, none, .transportError "x"⟩ "hello").fetchCount
      = 1 :=
  ⟨(C3_cache_read_failures [] ⟨0, some "conn lost", none,
      .transportError "x"⟩ "hello" (by decide)).1 "conn lost" rfl,
   (C3_cache_read_failures [⟨"hello", .corrupt "junk", "s", 0, 10⟩]
      ⟨0, none, none, .transportError "x"⟩ "hello" (by decide)).2.1 rfl
     ⟨"hello", .corrupt "junk", "s", 0, 10⟩ (by decide) rfl,
   (C3_cache_read_failures [] ⟨0, none, none, .transportError "x"⟩ "hello"
      (by decide)).2.2 rfl rfl⟩

/-- Claim C4: on an upstream 404 the lookup fails with the not-found error
carrying the normalized word; on a 200 with an empty entry array it fails
with the distinct empty-response upstream error; in both cases no cache
write is attempted and the database is unchanged. -/
theorem C4_not_found_vs_empty (db : Db) (env : LookupEnv) (word : String)
    (hw : goNormalize word ≠ "")
    (hr : env.readFault = none)
    (hmiss : GetCachedDictionary db env.now (goNormalize word) = none) :
    (∀ body, env.upstream = .httpStatus 404 body →
      LookupWord db env word =
        ⟨.error (.wordNotFound (goNormalize word)), db, 1, 1, none⟩) ∧
    (env.upstream = .httpStatus 200 (.ok (.entries [])) →
      LookupWord db env word = ⟨.error .emptyResponse, db, 1, 1, none⟩) ∧
    (∀ v, LookupErr.emptyResponse ≠ LookupErr.wordNotFound v) := by
  refine ⟨?_, ?_, fun v h => by cases h⟩
  · intro body hup
    simp [LookupWord, fetchFromAPI, hw, hr, hmiss, hup]
  · intro hup
    simp [LookupWord, fetchFromAPI, hw, hr, hmiss, hup]

/-- Witness for C4 at `"zzzznotaword"` (404) and at an empty 200 body. -/
theorem C4_not_found_vs_empty_witness :
    LookupWord [] ⟨0, none, none, .httpStatus 404 (.ok (.entries []))⟩
        "zzzznotaword" =
      ⟨.error (.wordNotFound (goNormalize "zzzznotaword")), [], 1, 1, none⟩ ∧
    LookupWord [] ⟨0, none, none, .httpStatus 200 (.ok (.entries []))⟩
        "zzzznotaword" =
      ⟨.error .emptyResponse, [], 1, 1, none⟩ :=
  ⟨(C4_not_found_vs_empty [] ⟨0, none, none,
      .httpStatus 404 (.ok (.entries []))⟩ "zzzznotaword" (by decide) rfl
      rfl).1 (.ok (.entries [])) rfl,
   (C4_not_found_vs_empty [] ⟨0, none, none,
      .httpStatus 200 (.ok (.entries []))⟩ "zzzznotaword" (by decide) rfl
      rfl).2.1 rfl⟩

/-- Claim C7: `normalizeResponse` depends only on the first entry of the
provider response; phonetics, meanings and their nested definitions are
mapped element-by-element preserving positions; synonym and antonym lists
pass through unchanged at both levels; the `sourceURL` is the head of the
provider's source-URL list when non-empty and the empty string (absent)
otherwise. -/
theorem C7_normalize_shape (apiResp : FreeDictAPIResponse)
    (h : apiResp ≠ []) :
    (∀ (resp2 : FreeDictAPIResponse) (h2 : resp2 ≠ []),
      resp2.head h2 = apiResp.head h →
      normalizeResponse resp2 h2 = normalizeResponse apiResp h) ∧
    (normalizeResponse apiResp h).word = (apiResp.head h).word ∧
    (∀ i : Nat, (normalizeResponse apiResp h).phonetics[i]? =
      ((apiResp.head h).phonetics[i]?).map toPhonetic) ∧
    (∀ i : Nat, (normalizeResponse apiResp h).meanings[i]? =
      ((apiResp.head h).meanings[i]?).map toMeaning) ∧
    (∀ m : APIMeaning, (toMeaning m).partOfSpeech = m.partOfSpeech ∧
      (toMeaning m).synonyms = m.synonyms ∧
      (toMeaning m).antonyms = m.antonyms ∧
      ∀ j : Nat, (toMeaning m).definitions[j]? =
        (m.definitions[j]?).map toDefinition) ∧
    (∀ d : APIDefinition, (toDefinition d).definition = d.definition ∧
      (toDefinition d).example_ = d.example_ ∧
      (toDefinition d).synonyms = d.synonyms ∧
      (toDefinition d).antonyms = d.antonyms) ∧
    ((apiResp.head h).sourceUrls = [] →
      (normalizeResponse apiResp h).sourceURL = "") ∧
    (∀ u us, (apiResp.head h).sourceUrls = u :: us →
      (normalizeResponse apiResp h).sourceURL = u) := by
  refine ⟨?_, rfl, ?_, ?_, ?_, ?_, ?_, ?_⟩
  · intro resp2 h2 hhead
    simp [normalizeResponse, hhead]
  · intro i
    simp [normalizeResponse, List.getElem?_map]
  · intro i
    simp [normalizeResponse, List.getElem?_map]
  · intro m
    refine ⟨rfl, rfl, rfl, ?_⟩
    intro j
    simp [toMeaning, List.getElem?_map]
  · intro d
    exact ⟨rfl, rfl, rfl, rfl⟩
  · intro hnil
    simp [normalizeResponse, hnil]
  · intro u us hcons
    simp [normalizeResponse, hcons]

/-- Witness for C7 on a concrete two-phonetic, one-meaning,
two-definition response. -/
theorem C7_normalize_shape_witness :
    (normalizeResponse
        [⟨"hello",
          [⟨"/h1/", "a1", "s1"⟩, ⟨"/h2/", "a2", "s2"⟩],
          [⟨"exclamation",
            [⟨"d1", "e1", ["syn"], []⟩, ⟨"d2", "e2", [], ["ant"]⟩],
            ["ms"], ["ma"]⟩],
          ["https://example.com/hello", "https://other"]⟩]
        (List.cons_ne_nil _ _)).phonetics[1]? =
      some ⟨"/h2/", "a2", "s2"⟩ ∧
    (normalizeResponse
        [⟨"hello",
          [⟨"/h1/", "a1", "s1"⟩, ⟨"/h2/", "a2", "s2"⟩],
          [⟨"exclamation",
            [⟨"d1", "e1", ["syn"], []⟩, ⟨"d2", "e2", [], ["ant"]⟩],
            ["ms"], ["ma"]⟩],
          ["https://example.com/hello", "https://other"]⟩]
        (List.cons_ne_nil _ _)).sourceURL = "https://example.com/hello" := by
  refine ⟨?_, ?_⟩
  · rw [(C7_normalize_shape _ (List.cons_ne_nil _ _)).2.2.1 1]
    decide
  · exact (C7_normalize_shape _ (List.cons_ne_nil _ _)).2.2.2.2.2.2.2
      "https://example.com/hello" ["https://other"] rfl

/-- Claim C8: after a first lookup that completes via a successful
upstream fetch and cache write, a second lookup of the same word executed
before the TTL expires returns the same entry from the cache and performs
no second upstream fetch. -/
theorem C8_second_lookup_cached (db : Db) (env1 env2 : LookupEnv)
    (word : String) (entry : DictionaryEntry)
    (hw : goNormalize word ≠ "")
    (hr1 : env1.readFault = none)
    (hwf1 : env1.writeFault = none)
    (hmiss : GetCachedDictionary db env1.now (goNormalize word) = none)
    (hfetch : fetchFromAPI (goNormalize word) env1.upstream = .ok entry)
    (hr2 : env2.readFault = none)
    (ht : env2.now < env1.now + cacheTTL) :
    (LookupWord db env1 word).result = .ok entry ∧
    (LookupWord db env1 word).fetchCount = 1 ∧
    (LookupWord (LookupWord db env1 word).db env2 word).result =
      .ok entry ∧
    (LookupWord (LookupWord db env1 word).db env2 word).fetchCount = 0 := by
  have hdb : (LookupWord db env1 word).db =
      SetCachedDictionary db env1.now (goNormalize word)
        (jsonMarshal entry) sourceFreeDic cacheTTL := by
    simp [LookupWord, hw, hr1, hmiss, hfetch, hwf1]
  have hhit := getCached_after_setCached db env1.now (goNormalize word)
    (jsonMarshal entry) sourceFreeDic cacheTTL env2.now ht
  simp only [jsonMarshal] at hhit
  refine ⟨?_, ?_, ?_, ?_⟩
  · simp [LookupWord, hw, hr1, hmiss, hfetch, hwf1]
  · simp [LookupWord, hw, hr1, hmiss, hfetch, hwf1]
  · rw [hdb]
    simp [LookupWord, hw, hr2, hhit, jsonMarshal, jsonUnmarshal]
  · rw [hdb]
    simp [LookupWord, hw, hr2, hhit, jsonMarshal, jsonUnmarshal]

/-- Witness for C8: a concrete pair of lookups of `"hello"`, the second
100 seconds after the first. -/
theorem C8_second_lookup_cached_witness :
    (LookupWord []
        ⟨0, none, none,
          .httpStatus 200 (.ok (.entries [⟨"hello", [], [], []⟩]))⟩
      "hello").result = .ok ⟨"hello", [], [], ""⟩ ∧
    (LookupWord []
        ⟨0, none, none,
          .httpStatus 200 (.ok (.entries [⟨"hello", [], [], []⟩]))⟩
      "hello").fetchCount = 1 ∧
    (LookupWord
        (LookupWord []
          ⟨0, none, none,
            .httpStatus 200 (.ok (.entries [⟨"hello", [], [], []⟩]))⟩
          "hello").db
        ⟨100000000000, none, none, .transportError "provider down"⟩
      "hello").result = .ok ⟨"hello", [], [], ""⟩ ∧
    (LookupWord
        (LookupWord []
          ⟨0, none, none,
            .httpStatus 200 (.ok (.entries [⟨"hello", [], [], []⟩]))⟩
          "hello").db
        ⟨100000000000, none, none, .transportError "provider down"⟩
      "hello").fetchCount = 0 :=
  C8_second_lookup_cached []
    ⟨0, none, none, .httpStatus 200 (.ok (.entries [⟨"hello", [], [], []⟩]))⟩
    ⟨100000000000, none, none, .transportError "provider down"⟩
    "hello" ⟨"hello", [], [], ""⟩ (by decide) rfl rfl rfl (by decide) rfl
    (by decide)

/-- Claim C10: the HTTP handler answers 404 exactly when the service error
message equals `"word not found: " ++` the raw query value (a successful
lookup never yields 404); consequently, for any raw query that differs
from its normalized form, an upstream 404 is reported to the client as
HTTP 500 rather than 404. -/
theorem C10_handler_status (db : Db) (env : LookupEnv)
    (wordbook : Except String Bool) (raw : String) (hraw : raw ≠ "") :
    (∀ e, (LookupWord db env raw).result = .error e →
      (LookupWordHandler db env wordbook raw = 404 ↔
        e.errString = "word not found: " ++ raw)) ∧
    (∀ v, (LookupWord db env raw).result = .ok v →
      LookupWordHandler db env wordbook raw ≠ 404) ∧
    (goNormalize raw ≠ raw →
      env.readFault = none →
      GetCachedDictionary db env.now (goNormalize raw) = none →
      goNormalize raw ≠ "" →
      ∀ body, env.upstream = .httpStatus 404 body →
        LookupWordHandler db env wordbook raw = 500) := by
  refine ⟨?_, ?_, ?_⟩
  · intro e he
    simp only [LookupWordHandler, hraw, if_false, he]
    by_cases hc : e.errString = "word not found: " ++ raw <;> simp [hc]
  · intro v hv
    simp only [LookupWordHandler, hraw, if_false, hv]
    cases wordbook <;> simp
  · intro hne hr hmiss hw body hup
    have hres : (LookupWord db env raw).result =
        .error (.wordNotFound (goNormalize raw)) := by
      simp [LookupWord, fetchFromAPI, hw, hr, hmiss, hup]
    simp only [LookupWordHandler, hraw, if_false, hres, LookupErr.errString]
    rw [if_neg]
    · intro hcontra
      exact hne (string_append_left_cancel hcontra)

/-- Witness for C10: the raw query `" Hello "` differs from its
normalization, so an upstream 404 surfaces as HTTP 500; and a service
error whose message does not match yields 500 by the iff. -/
theorem C10_handler_status_witness :
    LookupWordHandler [] ⟨0, none, none, .httpStatus 404 (.ok (.entries []))⟩
      (.ok false) " Hello " = 500 :=
  (C10_handler_status [] ⟨0, none, none, .httpStatus 404 (.ok (.entries []))⟩
      (.ok false) " Hello " (by decide)).2.2 (by decide) rfl rfl (by decide)
    (.ok (.entries [])) rfl

end Vocab
